import Mathlib

/-!
Verification of the FER_LLM credential-isolating LLM relay
(src/llm-proxy/server.js, handler for POST /proxy/llm).

Shallow embedding. JavaScript values are modelled by `JSValue`; the
Express handler is the pure function `handleProxyLLM`, mapping the
configuration, the inbound request body and the observed upstream
behaviour to the trace of outbound fetch requests issued, the trace of
responses sent to the caller, and the diagnostic log lines emitted.
Each res.json or res.status(..).json call in the source appends one
entry to `sends`; the early return after the upstream-error envelope is
reflected in the branch structure. JSON.stringify of the outbound body
is not modelled textually: `OutboundRequest.body` is the structured
value the source passes to JSON.stringify.
-/

/-- A JavaScript value, as relevant to the relay: the inbound JSON body,
the outbound JSON body, and the decoded upstream body. Numbers are
modelled as integers; no claim involves fractional values or NaN. -/
inductive JSValue where
  | undefined : JSValue
  | null : JSValue
  | bool : Bool → JSValue
  | num : Int → JSValue
  | str : String → JSValue
  | arr : List JSValue → JSValue
  | obj : List (String × JSValue) → JSValue

/-- JavaScript truthiness: undefined, null, false, 0 and the empty
string are falsy; every other modelled value is truthy. -/
def truthy : JSValue → Bool
  | JSValue.undefined => false
  | JSValue.null => false
  | JSValue.bool b => b
  | JSValue.num n => decide (n ≠ 0)
  | JSValue.str s => decide (s ≠ "")
  | JSValue.arr _ => true
  | JSValue.obj _ => true

/-- The JavaScript operator a || b: the left operand when truthy,
otherwise the right operand. -/
def jsOr (a b : JSValue) : JSValue := if truthy a then a else b

/-- JavaScript property access v.k (as used by the destructuring
const (model, messages) = req.body): the bound field of an object,
undefined when the field is absent or the value is not an object. -/
def getProp : JSValue → String → JSValue
  | JSValue.obj fields, k => (fields.lookup k).getD JSValue.undefined
  | _, _ => JSValue.undefined

/-- Process-wide relay configuration (server.js lines 11-12): upstream
URL and upstream API key, read once at startup and never mutated. -/
structure RelayConfig where
  url : String
  key : String

/-- One outbound fetch request, as built at server.js lines 23-33. -/
structure OutboundRequest where
  url : String
  method : String
  headers : List (String × String)
  body : JSValue

/-- An upstream HTTP reply as observed through fetch: the status code,
the result of reading the body as text (response.text), and the result
of decoding the body as JSON (response.json). Either read may fail by
throwing; a thrown failure carries its message string. -/
structure UpstreamReply where
  status : Nat
  bodyText : Except String String
  bodyJson : Except String JSValue

/-- The behaviour of the upstream on one outbound call: either the
fetch promise rejects with an error message (DNS, connect, timeout), or
an HTTP reply is observed. -/
inductive UpstreamBehavior where
  | fetchError : String → UpstreamBehavior
  | reply : UpstreamReply → UpstreamBehavior

/-- response.ok per the WHATWG fetch specification: the status is in
the inclusive range 200 to 299. -/
def respOk (status : Nat) : Bool :=
  decide (200 ≤ status) && decide (status ≤ 299)

/-- A diagnostic log line emitted by the handler. `requestFor` is the
console.log at line 21 and carries the logged value model || the
literal default marker; `apiError` is the console.error at line 37;
`proxyError` is the console.error at line 49. -/
inductive LogEntry where
  | requestFor : JSValue → LogEntry
  | apiError : Nat → String → LogEntry
  | proxyError : String → LogEntry

/-- One response sent to the caller: HTTP status and JSON body. -/
structure ClientResponse where
  status : Nat
  body : JSValue

/-- The observable effects of one run of the handler. -/
structure HandlerResult where
  requests : List OutboundRequest
  sends : List ClientResponse
  logs : List LogEntry

/-- The POST /proxy/llm handler (server.js lines 18-55), as a function
of the configuration, the inbound request body, and the upstream
behaviour. Lines 20-21 destructure and log; lines 23-33 issue the one
outbound fetch; lines 35-44 send the upstream-error envelope and
return; lines 46-47 relay the decoded success body via res.json (which
sends with the default status 200); lines 48-54 catch any thrown
failure, log it, and send the transport-error envelope with status 500.
A failing response.text on the non-success path also throws into the
catch block, as does a failing response.json on the success path. -/
def handleProxyLLM (cfg : RelayConfig) (reqBody : JSValue)
    (up : UpstreamBehavior) : HandlerResult :=
  let model := getProp reqBody "model"
  let messages := getProp reqBody "messages"
  let logStart := LogEntry.requestFor (jsOr model (JSValue.str "(default)"))
  let outbound : OutboundRequest :=
    { url := cfg.url,
      method := "POST",
      headers := [("Authorization", "Bearer " ++ cfg.key),
                  ("Content-Type", "application/json")],
      body := JSValue.obj [("model", jsOr model (JSValue.str "gpt-4o")),
                           ("messages", jsOr messages (JSValue.arr []))] }
  match up with
  | UpstreamBehavior.fetchError msg =>
      { requests := [outbound],
        sends := [⟨500, JSValue.obj
          [("error", JSValue.str "Failed to reach Duke LLM API"),
           ("details", JSValue.str msg)]⟩],
        logs := [logStart, LogEntry.proxyError msg] }
  | UpstreamBehavior.reply r =>
      if respOk r.status then
        match r.bodyJson with
        | Except.ok data =>
            { requests := [outbound],
              sends := [⟨200, data⟩],
              logs := [logStart] }
        | Except.error msg =>
            { requests := [outbound],
              sends := [⟨500, JSValue.obj
                [("error", JSValue.str "Failed to reach Duke LLM API"),
                 ("details", JSValue.str msg)]⟩],
              logs := [logStart, LogEntry.proxyError msg] }
      else
        match r.bodyText with
        | Except.ok errorText =>
            { requests := [outbound],
              sends := [⟨r.status, JSValue.obj
                [("error", JSValue.str "Duke LLM API error"),
                 ("status", JSValue.num r.status),
                 ("details", JSValue.str errorText)]⟩],
              logs := [logStart, LogEntry.apiError r.status errorText] }
        | Except.error msg =>
            { requests := [outbound],
              sends := [⟨500, JSValue.obj
                [("error", JSValue.str "Failed to reach Duke LLM API"),
                 ("details", JSValue.str msg)]⟩],
              logs := [logStart, LogEntry.proxyError msg] }

/-- Concrete configuration used by witnesses and counterexamples. -/
def cfgDemo : RelayConfig :=
  { url := "https://litellm.oit.duke.edu/v1/chat/completions",
    key := "sk-demo" }

/-- A second concrete configuration with a different key and URL. -/
def cfgOther : RelayConfig :=
  { url := "https://other.example/v1/chat/completions",
    key := "sk-other" }

/-- A successful upstream reply with the non-200 success status 201. -/
def replyCreated : UpstreamReply :=
  { status := 201,
    bodyText := Except.ok "raw",
    bodyJson := Except.ok (JSValue.obj [("choices", JSValue.arr [])]) }

/-- A successful upstream reply with status 200. -/
def replyOk : UpstreamReply :=
  { status := 200,
    bodyText := Except.ok "raw",
    bodyJson := Except.ok (JSValue.obj [("choices", JSValue.arr [])]) }

/-- A rate-limited upstream reply: status 429, body text rate limited. -/
def reply429 : UpstreamReply :=
  { status := 429,
    bodyText := Except.ok "rate limited",
    bodyJson := Except.error "SyntaxError" }

/-- A 200 reply whose body fails to decode as JSON. -/
def replyBadJson : UpstreamReply :=
  { status := 200,
    bodyText := Except.ok "not json",
    bodyJson := Except.error "Unexpected token" }

/-- An inbound body that supplies both fields, with a falsy messages
value: the model is a string and messages is null. -/
def bodySuppliedFalsy : JSValue :=
  JSValue.obj [("model", JSValue.str "gpt-4o-mini"),
               ("messages", JSValue.null)]

/-- The inbound body of property P1 of the specification. -/
def bodyP1 : JSValue :=
  JSValue.obj [("model", JSValue.str "gpt-4o-mini"),
               ("messages", JSValue.arr [JSValue.obj
                 [("role", JSValue.str "user"),
                  ("content", JSValue.str "hi")]])]

/-- C1: the responses and logs of the handler are a function of the
inbound body and the upstream behaviour alone, independent of the
configured key and URL; the key appears only in the Authorization
header of the one outbound request, whose header list is exactly the
Authorization and Content-Type pair; the outbound body is likewise
independent of the configuration. -/
theorem relay_key_confined (cfg cfg' : RelayConfig) (reqBody : JSValue)
    (up : UpstreamBehavior) :
    (handleProxyLLM cfg reqBody up).sends
        = (handleProxyLLM cfg' reqBody up).sends
    ∧ (handleProxyLLM cfg reqBody up).logs
        = (handleProxyLLM cfg' reqBody up).logs
    ∧ (handleProxyLLM cfg reqBody up).requests.map OutboundRequest.headers
        = [[("Authorization", "Bearer " ++ cfg.key),
            ("Content-Type", "application/json")]]
    ∧ (handleProxyLLM cfg reqBody up).requests.map OutboundRequest.body
        = (handleProxyLLM cfg' reqBody up).requests.map OutboundRequest.body := by
  cases up with
  | fetchError msg => simp [handleProxyLLM]
  | reply r =>
      cases hOk : respOk r.status with
      | false => cases ht : r.bodyText <;> simp [handleProxyLLM, hOk, ht]
      | true => cases hj : r.bodyJson <;> simp [handleProxyLLM, hOk, hj]

/-- C2 counterexample: the upstream reply with the success status 201
is relayed with status 200, not 201 — the success-path status is not
copied from the upstream. -/
theorem relay_success_status_cex :
    respOk replyCreated.status = true
    ∧ (handleProxyLLM cfgDemo (JSValue.obj [])
        (UpstreamBehavior.reply replyCreated)).sends
        = [⟨200, JSValue.obj [("choices", JSValue.arr [])]⟩]
    ∧ replyCreated.status ≠ 200 := by
  refine ⟨rfl, rfl, by simp [replyCreated]⟩

/-- C2 amended: for every upstream reply with a success status whose
body decodes, the relay sends exactly the decoded body to the caller,
with HTTP status 200 regardless of which success status the upstream
returned. -/
theorem relay_success_passthrough (cfg : RelayConfig) (reqBody : JSValue)
    (r : UpstreamReply) (data : JSValue)
    (hOk : respOk r.status = true) (hj : r.bodyJson = Except.ok data) :
    (handleProxyLLM cfg reqBody (UpstreamBehavior.reply r)).sends
      = [⟨200, data⟩] := by
  simp [handleProxyLLM, hOk, hj]

/-- C2 amended, witness at the concrete 200 reply. -/
theorem relay_success_passthrough_witness :
    (handleProxyLLM cfgDemo (JSValue.obj [])
        (UpstreamBehavior.reply replyOk)).sends
      = [⟨200, JSValue.obj [("choices", JSValue.arr [])]⟩] :=
  relay_success_passthrough cfgDemo (JSValue.obj []) replyOk
    (JSValue.obj [("choices", JSValue.arr [])]) rfl rfl

/-- C3: for every upstream reply with a non-success status S whose body
reads as text T, the relay sends status S unaltered with body
error = Duke LLM API error, status = S, details = T. -/
theorem relay_upstream_error_envelope (cfg : RelayConfig)
    (reqBody : JSValue) (r : UpstreamReply) (T : String)
    (hBad : respOk r.status = false) (ht : r.bodyText = Except.ok T) :
    (handleProxyLLM cfg reqBody (UpstreamBehavior.reply r)).sends
      = [⟨r.status, JSValue.obj
          [("error", JSValue.str "Duke LLM API error"),
           ("status", JSValue.num r.status),
           ("details", JSValue.str T)]⟩] := by
  simp [handleProxyLLM, hBad, ht]

/-- C3 witness: status 429 with body text rate limited. -/
theorem relay_upstream_error_envelope_witness :
    (handleProxyLLM cfgDemo (JSValue.obj [])
        (UpstreamBehavior.reply reply429)).sends
      = [⟨429, JSValue.obj
          [("error", JSValue.str "Duke LLM API error"),
           ("status", JSValue.num 429),
           ("details", JSValue.str "rate limited")]⟩] :=
  relay_upstream_error_envelope cfgDemo (JSValue.obj []) reply429
    "rate limited" rfl rfl

/-- C4: whenever the outbound call cannot be completed, or the upstream
replied with a success status but its body fails to decode as JSON, the
relay sends the single response status 500 with body
error = Failed to reach Duke LLM API and details = the local failure
message. -/
theorem relay_transport_failure_500 (cfg : RelayConfig)
    (reqBody : JSValue) (up : UpstreamBehavior) (msg : String)
    (h : up = UpstreamBehavior.fetchError msg
         ∨ ∃ r, up = UpstreamBehavior.reply r ∧ respOk r.status = true
             ∧ r.bodyJson = Except.error msg) :
    (handleProxyLLM cfg reqBody up).sends
      = [⟨500, JSValue.obj
          [("error", JSValue.str "Failed to reach Duke LLM API"),
           ("details", JSValue.str msg)]⟩] := by
  rcases h with h | ⟨r, h, hOk, hj⟩ <;> subst h
  · simp [handleProxyLLM]
  · simp [handleProxyLLM, hOk, hj]

/-- C4 witness: a rejected fetch with message fetch failed. -/
theorem relay_transport_failure_500_witness :
    (handleProxyLLM cfgDemo (JSValue.obj [])
        (UpstreamBehavior.fetchError "fetch failed")).sends
      = [⟨500, JSValue.obj
          [("error", JSValue.str "Failed to reach Duke LLM API"),
           ("details", JSValue.str "fetch failed")]⟩] :=
  relay_transport_failure_500 cfgDemo (JSValue.obj [])
    (UpstreamBehavior.fetchError "fetch failed") "fetch failed"
    (Or.inl rfl)

/-- Helper: the handler issues the same single outbound request on
every path. -/
theorem relay_requests_eq (cfg : RelayConfig) (reqBody : JSValue)
    (up : UpstreamBehavior) :
    (handleProxyLLM cfg reqBody up).requests
      = [{ url := cfg.url,
           method := "POST",
           headers := [("Authorization", "Bearer " ++ cfg.key),
                       ("Content-Type", "application/json")],
           body := JSValue.obj
             [("model", jsOr (getProp reqBody "model")
                 (JSValue.str "gpt-4o")),
              ("messages", jsOr (getProp reqBody "messages")
                 (JSValue.arr []))] }] := by
  cases up with
  | fetchError msg => simp [handleProxyLLM]
  | reply r =>
      cases hOk : respOk r.status with
      | false => cases ht : r.bodyText <;> simp [handleProxyLLM, hOk, ht]
      | true => cases hj : r.bodyJson <;> simp [handleProxyLLM, hOk, hj]

/-- Helper: reading the model field of the outbound two-field body. -/
theorem getProp_model_pair (m ms : JSValue) :
    getProp (JSValue.obj [("model", m), ("messages", ms)]) "model" = m :=
  rfl

/-- Helper: reading the messages field of the outbound two-field
body. -/
theorem getProp_messages_pair (m ms : JSValue) :
    getProp (JSValue.obj [("model", m), ("messages", ms)]) "messages"
      = ms := rfl

/-- C5: when the model field of the inbound body is absent, the
outbound body carries model gpt-4o; when the messages field is absent,
the outbound body carries the empty messages array; each default is
applied independently of the other field. -/
theorem relay_defaults_when_absent (cfg : RelayConfig)
    (reqBody : JSValue) (up : UpstreamBehavior) :
    (getProp reqBody "model" = JSValue.undefined →
      (handleProxyLLM cfg reqBody up).requests.map
          (fun q => getProp q.body "model") = [JSValue.str "gpt-4o"])
    ∧ (getProp reqBody "messages" = JSValue.undefined →
      (handleProxyLLM cfg reqBody up).requests.map
          (fun q => getProp q.body "messages") = [JSValue.arr []]) := by
  refine ⟨fun h => ?_, fun h => ?_⟩ <;>
    simp [relay_requests_eq, getProp_model_pair, getProp_messages_pair,
      h, jsOr, truthy]

/-- C5 witness: one body with only messages, one body with only
model. -/
theorem relay_defaults_when_absent_witness :
    (handleProxyLLM cfgDemo (JSValue.obj [("messages", JSValue.arr [])])
        (UpstreamBehavior.reply replyOk)).requests.map
        (fun q => getProp q.body "model") = [JSValue.str "gpt-4o"]
    ∧ (handleProxyLLM cfgDemo (JSValue.obj [("model", JSValue.str "m")])
        (UpstreamBehavior.reply replyOk)).requests.map
        (fun q => getProp q.body "messages") = [JSValue.arr []] :=
  ⟨(relay_defaults_when_absent cfgDemo
      (JSValue.obj [("messages", JSValue.arr [])])
      (UpstreamBehavior.reply replyOk)).1 rfl,
   (relay_defaults_when_absent cfgDemo
      (JSValue.obj [("model", JSValue.str "m")])
      (UpstreamBehavior.reply replyOk)).2 rfl⟩

/-- C6 counterexample: an inbound body that supplies both fields, with
messages null; the outbound body does not carry the supplied null — the
falsy messages value is replaced by the empty-array default, so the
supplied values are not forwarded as given. -/
theorem relay_forwards_supplied_cex :
    (handleProxyLLM cfgDemo bodySuppliedFalsy
        (UpstreamBehavior.reply replyOk)).requests.map OutboundRequest.body
      = [JSValue.obj [("model", JSValue.str "gpt-4o-mini"),
                      ("messages", JSValue.arr [])]]
    ∧ (handleProxyLLM cfgDemo bodySuppliedFalsy
        (UpstreamBehavior.reply replyOk)).requests.map OutboundRequest.body
      ≠ [JSValue.obj [("model", JSValue.str "gpt-4o-mini"),
                      ("messages", JSValue.null)]] := by
  have h1 : (handleProxyLLM cfgDemo bodySuppliedFalsy
      (UpstreamBehavior.reply replyOk)).requests.map OutboundRequest.body
      = [JSValue.obj [("model", JSValue.str "gpt-4o-mini"),
                      ("messages", JSValue.arr [])]] := rfl
  refine ⟨h1, fun hEq => ?_⟩
  rw [h1] at hEq
  simp at hEq

/-- C6 amended: for every inbound body whose supplied model and
messages values are truthy, the outbound body is exactly the object
carrying those two supplied values, and every other inbound field is
dropped (the outbound object has exactly the fields model and
messages); supplied falsy values are instead replaced by the defaults
(see C9). -/
theorem relay_forwards_truthy_supplied (cfg : RelayConfig)
    (reqBody : JSValue) (up : UpstreamBehavior)
    (hm : truthy (getProp reqBody "model") = true)
    (hs : truthy (getProp reqBody "messages") = true) :
    (handleProxyLLM cfg reqBody up).requests.map OutboundRequest.body
      = [JSValue.obj [("model", getProp reqBody "model"),
                      ("messages", getProp reqBody "messages")]] := by
  simp [relay_requests_eq, jsOr, hm, hs]

/-- C6 amended, witness at the body of specification property P1. -/
theorem relay_forwards_truthy_supplied_witness :
    (handleProxyLLM cfgDemo bodyP1
        (UpstreamBehavior.reply replyOk)).requests.map OutboundRequest.body
      = [JSValue.obj [("model", getProp bodyP1 "model"),
                      ("messages", getProp bodyP1 "messages")]] :=
  relay_forwards_truthy_supplied cfgDemo bodyP1
    (UpstreamBehavior.reply replyOk) rfl rfl

/-- C7: on every inbound request and under every upstream behaviour the
relay issues exactly one outbound request, targeting the configured
upstream URL, with method POST, with exactly the Authorization header
built from the configured key under the Bearer scheme and the
Content-Type header marking the body as JSON. -/
theorem relay_single_outbound_post (cfg : RelayConfig)
    (reqBody : JSValue) (up : UpstreamBehavior) :
    (handleProxyLLM cfg reqBody up).requests.map
        (fun q => (q.url, q.method, q.headers))
      = [(cfg.url, "POST",
          [("Authorization", "Bearer " ++ cfg.key),
           ("Content-Type", "application/json")])] := by
  simp [relay_requests_eq]

/-- C8 counterexample: on a successful forwarding attempt the log trace
is exactly the single before-line; no diagnostic log line is emitted
after a successful attempt, contrary to the claim that a line is
emitted after the forwarding attempt for every request. -/
theorem relay_success_no_after_log_cex :
    (handleProxyLLM cfgDemo (JSValue.obj [])
        (UpstreamBehavior.reply replyOk)).logs
      = [LogEntry.requestFor (JSValue.str "(default)")] := rfl

/-- C8 amended: for every inbound request the first log line, emitted
before the forwarding attempt, identifies the requested model or its
absence; after a failed attempt — fetch rejection, upstream error with
readable body, or JSON decode failure — a second line carrying the
failure detail closes the trace; after a successful attempt the trace
is the before-line alone. In the model, logging is pure accumulation
alongside the request and send traces; it cannot alter them. -/
theorem relay_logging_characterized (cfg : RelayConfig)
    (reqBody : JSValue) (up : UpstreamBehavior) :
    (handleProxyLLM cfg reqBody up).logs.head?
      = some (LogEntry.requestFor
          (jsOr (getProp reqBody "model") (JSValue.str "(default)")))
    ∧ (∀ msg, up = UpstreamBehavior.fetchError msg →
        (handleProxyLLM cfg reqBody up).logs
          = [LogEntry.requestFor
              (jsOr (getProp reqBody "model") (JSValue.str "(default)")),
             LogEntry.proxyError msg])
    ∧ (∀ r T, up = UpstreamBehavior.reply r → respOk r.status = false →
        r.bodyText = Except.ok T →
        (handleProxyLLM cfg reqBody up).logs
          = [LogEntry.requestFor
              (jsOr (getProp reqBody "model") (JSValue.str "(default)")),
             LogEntry.apiError r.status T])
    ∧ (∀ r msg, up = UpstreamBehavior.reply r → respOk r.status = true →
        r.bodyJson = Except.error msg →
        (handleProxyLLM cfg reqBody up).logs
          = [LogEntry.requestFor
              (jsOr (getProp reqBody "model") (JSValue.str "(default)")),
             LogEntry.proxyError msg])
    ∧ (∀ r data, up = UpstreamBehavior.reply r → respOk r.status = true →
        r.bodyJson = Except.ok data →
        (handleProxyLLM cfg reqBody up).logs
          = [LogEntry.requestFor
              (jsOr (getProp reqBody "model") (JSValue.str "(default)"))]) := by
  refine ⟨?_, ?_, ?_, ?_, ?_⟩
  · cases up with
    | fetchError msg => simp [handleProxyLLM]
    | reply r =>
        cases hOk : respOk r.status with
        | false => cases ht : r.bodyText <;> simp [handleProxyLLM, hOk, ht]
        | true => cases hj : r.bodyJson <;> simp [handleProxyLLM, hOk, hj]
  · rintro msg rfl; simp [handleProxyLLM]
  · rintro r T rfl hBad ht; simp [handleProxyLLM, hBad, ht]
  · rintro r msg rfl hOk hj; simp [handleProxyLLM, hOk, hj]
  · rintro r data rfl hOk hj; simp [handleProxyLLM, hOk, hj]

/-- C8 amended, witness: a rejected fetch yields the before-line
followed by the failure line. -/
theorem relay_logging_characterized_witness :
    (handleProxyLLM cfgDemo (JSValue.obj [])
        (UpstreamBehavior.fetchError "ECONNREFUSED")).logs
      = [LogEntry.requestFor (JSValue.str "(default)"),
         LogEntry.proxyError "ECONNREFUSED"] :=
  (relay_logging_characterized cfgDemo (JSValue.obj [])
      (UpstreamBehavior.fetchError "ECONNREFUSED")).2.1
    "ECONNREFUSED" rfl

/-- C9: a present-but-falsy model value (empty string, null, false) is
replaced by the default gpt-4o in the outbound body, and a falsy
messages value by the empty array: defaulting triggers on every falsy
value, not only on absence. -/
theorem relay_defaults_on_falsy (cfg : RelayConfig) (reqBody : JSValue)
    (up : UpstreamBehavior) :
    (truthy (getProp reqBody "model") = false →
      (handleProxyLLM cfg reqBody up).requests.map
          (fun q => getProp q.body "model") = [JSValue.str "gpt-4o"])
    ∧ (truthy (getProp reqBody "messages") = false →
      (handleProxyLLM cfg reqBody up).requests.map
          (fun q => getProp q.body "messages") = [JSValue.arr []]) := by
  refine ⟨fun h => ?_, fun h => ?_⟩ <;>
    simp [relay_requests_eq, getProp_model_pair, getProp_messages_pair,
      jsOr, h]

/-- C9 witness: model supplied as the empty string and messages
supplied as null are both defaulted. -/
theorem relay_defaults_on_falsy_witness :
    (handleProxyLLM cfgDemo
        (JSValue.obj [("model", JSValue.str ""),
                      ("messages", JSValue.null)])
        (UpstreamBehavior.reply replyOk)).requests.map
        (fun q => getProp q.body "model") = [JSValue.str "gpt-4o"]
    ∧ (handleProxyLLM cfgDemo
        (JSValue.obj [("model", JSValue.str ""),
                      ("messages", JSValue.null)])
        (UpstreamBehavior.reply replyOk)).requests.map
        (fun q => getProp q.body "messages") = [JSValue.arr []] :=
  ⟨(relay_defaults_on_falsy cfgDemo
      (JSValue.obj [("model", JSValue.str ""),
                    ("messages", JSValue.null)])
      (UpstreamBehavior.reply replyOk)).1 rfl,
   (relay_defaults_on_falsy cfgDemo
      (JSValue.obj [("model", JSValue.str ""),
                    ("messages", JSValue.null)])
      (UpstreamBehavior.reply replyOk)).2 rfl⟩

/-- C10: the relay sends exactly one response per request, on every
path; in particular, after the upstream-error envelope is sent on a
non-success reply, the success path is not also executed — the send
trace is exactly the singleton error envelope, so the success,
upstream-error and transport-error responses are mutually exclusive. -/
theorem relay_exactly_one_send (cfg : RelayConfig) (reqBody : JSValue)
    (up : UpstreamBehavior) :
    (handleProxyLLM cfg reqBody up).sends.length = 1
    ∧ (∀ r T, up = UpstreamBehavior.reply r → respOk r.status = false →
        r.bodyText = Except.ok T →
        (handleProxyLLM cfg reqBody up).sends
          = [⟨r.status, JSValue.obj
              [("error", JSValue.str "Duke LLM API error"),
               ("status", JSValue.num r.status),
               ("details", JSValue.str T)]⟩]) := by
  refine ⟨?_, ?_⟩
  · cases up with
    | fetchError msg => simp [handleProxyLLM]
    | reply r =>
        cases hOk : respOk r.status with
        | false => cases ht : r.bodyText <;> simp [handleProxyLLM, hOk, ht]
        | true => cases hj : r.bodyJson <;> simp [handleProxyLLM, hOk, hj]
  · rintro r T rfl hBad ht; simp [handleProxyLLM, hBad, ht]

/-- C10 witness: the 429 reply produces the singleton error-envelope
send trace. -/
theorem relay_exactly_one_send_witness :
    (handleProxyLLM cfgDemo (JSValue.obj [])
        (UpstreamBehavior.reply reply429)).sends.length = 1
    ∧ (handleProxyLLM cfgDemo (JSValue.obj [])
        (UpstreamBehavior.reply reply429)).sends
      = [⟨429, JSValue.obj
          [("error", JSValue.str "Duke LLM API error"),
           ("status", JSValue.num 429),
           ("details", JSValue.str "rate limited")]⟩] :=
  ⟨(relay_exactly_one_send cfgDemo (JSValue.obj [])
      (UpstreamBehavior.reply reply429)).1,
   (relay_exactly_one_send cfgDemo (JSValue.obj [])
      (UpstreamBehavior.reply reply429)).2 reply429 "rate limited"
     rfl rfl rfl⟩
